import Mathlib

/-!
Verification of the BacklogAI scoring core against its specification.

The Python sources under `backend/app` are shallowly embedded:
Python floats become exact rationals (`ℚ`), `round(x, d)` becomes
`roundTo d`, `max(lo, min(hi, x))` becomes `clamp lo hi x`, dictionaries
become association lists or option-valued lookup functions, and dynamic
Python values become the inductive type `PyVal`.
-/

namespace BacklogAI

/-- Python `max(lo, min(hi, x))`. -/
def clamp (lo hi x : ℚ) : ℚ := max lo (min hi x)

/-- Python `round(x, d)` modelled on exact rationals (round to `d` decimal
places; ties resolved by `round` on `ℚ`, which no value of interest hits). -/
def roundTo (d : ℕ) (x : ℚ) : ℚ := (round (x * 10 ^ d) : ℤ) / 10 ^ d

theorem clamp_le (lo hi x : ℚ) (h : lo ≤ hi) : clamp lo hi x ≤ hi := by
  simp only [clamp, max_le_iff]
  exact ⟨h, min_le_left _ _⟩

theorem le_clamp (lo hi x : ℚ) : lo ≤ clamp lo hi x := le_max_left _ _

theorem clamp_of_mem (lo hi x : ℚ) (h1 : lo ≤ x) (h2 : x ≤ hi) :
    clamp lo hi x = x := by
  simp only [clamp]
  rw [min_eq_right h2, max_eq_right h1]

theorem clamp_idem (lo hi x : ℚ) (h : lo ≤ hi) :
    clamp lo hi (clamp lo hi x) = clamp lo hi x :=
  clamp_of_mem _ _ _ (le_clamp _ _ _) (clamp_le _ _ _ h)

theorem roundTo_mono (d : ℕ) {x y : ℚ} (h : x ≤ y) :
    roundTo d x ≤ roundTo d y := by
  unfold roundTo
  have hpow : (0 : ℚ) < 10 ^ d := by positivity
  have hm : x * 10 ^ d ≤ y * 10 ^ d := by
    exact mul_le_mul_of_nonneg_right h (le_of_lt hpow)
  have hr : round (x * 10 ^ d) ≤ round (y * 10 ^ d) := by
    rw [round_eq, round_eq]
    exact Int.floor_le_floor (by linarith)
  gcongr


theorem roundTo_nonneg (d : ℕ) {x : ℚ} (h : 0 ≤ x) : 0 ≤ roundTo d x := by
  have h0 : roundTo d 0 = 0 := by
    unfold roundTo
    norm_num
  calc (0 : ℚ) = roundTo d 0 := h0.symm
    _ ≤ roundTo d x := roundTo_mono d h

theorem roundTo_intCast (d : ℕ) (n : ℤ) : roundTo d (n : ℚ) = n := by
  unfold roundTo
  have : ((n : ℚ) * 10 ^ d) = ((n * 10 ^ d : ℤ) : ℚ) := by push_cast; ring
  rw [this, round_intCast]
  push_cast
  field_simp

theorem roundTo_le_of_le_int (d : ℕ) {x : ℚ} (n : ℤ) (h : x ≤ n) :
    roundTo d x ≤ n := by
  calc roundTo d x ≤ roundTo d n := roundTo_mono d h
    _ = n := roundTo_intCast d n

/-! ### String helpers mirroring the Python string primitives -/

/-- Python `str.lower()` (ASCII fragment, which covers every comparison the
sources perform). -/
def pyLower (s : String) : String := ⟨s.data.map Char.toLower⟩

/-- ASCII whitespace recognised by Python `str.strip()`. -/
def isSpaceChar (c : Char) : Bool := c == ' ' || c == '\t' || c == '\n' || c == '\r'

/-- Python `str.strip()`. -/
def pyStrip (s : String) : String :=
  ⟨((s.data.dropWhile isSpaceChar).reverse.dropWhile isSpaceChar).reverse⟩

/-- `leadsWith pat l` holds when `pat` is an initial segment of `l`. -/
def leadsWith : List Char → List Char → Bool
  | [], _ => true
  | _ :: _, [] => false
  | a :: as, b :: bs => a == b && leadsWith as bs

/-- `hasSub pat l` holds when `pat` occurs contiguously inside `l`. -/
def hasSub (pat : List Char) : List Char → Bool
  | [] => leadsWith pat []
  | c :: rest => leadsWith pat (c :: rest) || hasSub pat rest

/-- Python `pat in s` for strings (contiguous substring test). -/
def occursIn (pat s : String) : Bool := hasSub pat.data s.data

/-! ### Enumerations from `app/schemas.py` -/

inductive PriorityLevel where
  | MUST_HAVE
  | SHOULD_HAVE
  | COULD_HAVE
  | WONT_HAVE
deriving DecidableEq, Repr

inductive PriorityBand where
  | LOW
  | MEDIUM
  | HIGH
  | VERY_HIGH
deriving DecidableEq, Repr

inductive WarningSeverity where
  | HIGH
  | MEDIUM
  | LOW
deriving DecidableEq, Repr

inductive WarningType where
  | CLARITY
  | INVEST
  | TESTABILITY
  | MEASURABILITY
  | SCOPE
  | RESEARCH
  | NFR
deriving DecidableEq, Repr

structure QualityWarning where
  code : String
  type : WarningType
  severity : WarningSeverity
  message : String
deriving DecidableEq, Repr

structure PriorityBreakdown where
  base_pillar_score : ℚ
  user_demand_signal : ℚ
  competitor_pressure_signal : ℚ
  effort_penalty : ℚ
  evidence_multiplier : ℚ
  final_score : ℚ
deriving DecidableEq, Repr

/-! ### `app/services/prioritization_engine.py` -/

/-- `pillar_scores.get(key, default)` for a pillar mapping modelled as an
option-valued lookup function. -/
def pget (m : String → Option ℚ) (k : String) (d : ℚ) : ℚ := (m k).getD d

/-- `PrioritizationEngine.calculate_priority`: weighted pillar average scaled
to 0-100 plus a MoSCoW level.  Mirrors lines 7-47 of the source. -/
def calculate_priority (pillar_scores : String → Option ℚ) : ℚ × PriorityLevel :=
  let uv := pget pillar_scores "user_value" 5
  let ci := pget pillar_scores "commercial_impact" 5
  let sh := pget pillar_scores "strategic_horizon" 5
  let cp := pget pillar_scores "competitive_positioning" 5
  let tr := pget pillar_scores "technical_reality" 5
  let weighted_sum := uv * 2 + ci * 2 + sh * (3/2) + tr * (3/2) + cp * 1
  let total_weight : ℚ := 2 + 2 + 3/2 + 3/2 + 1
  let final_score := weighted_sum / total_weight * 10
  let priority :=
    if final_score ≥ 80 then PriorityLevel.MUST_HAVE
    else if final_score ≥ 60 then PriorityLevel.SHOULD_HAVE
    else if final_score ≥ 40 then PriorityLevel.COULD_HAVE
    else PriorityLevel.WONT_HAVE
  (roundTo 1 final_score, priority)

structure PriorityV2Result where
  final_score : ℚ
  priority_level : PriorityLevel
  priority_band : PriorityBand
  priority_text : String
  confidence : ℚ
  breakdown : PriorityBreakdown
deriving DecidableEq, Repr

/-- `PrioritizationEngine.calculate_priority_v2` (lines 49-95 of the source). -/
def calculate_priority_v2 (pillar_scores : String → Option ℚ)
    (user_demand_signal competitor_pressure_signal effort_penalty
      evidence_multiplier : ℚ) : PriorityV2Result :=
  let base_score := (calculate_priority pillar_scores).1
  let demand_component := clamp 0 1 user_demand_signal * 8
  let competitor_component := clamp 0 1 competitor_pressure_signal * 7
  let effort_component := clamp 0 1 effort_penalty * 12
  let multiplier := clamp (17/20) (23/20) evidence_multiplier
  let adjusted_score :=
    (base_score + demand_component + competitor_component - effort_component) * multiplier
  let final_score := roundTo 1 (clamp 0 100 adjusted_score)
  let level_band_text : PriorityLevel × PriorityBand × String :=
    if final_score ≥ 80 then (.MUST_HAVE, .VERY_HIGH, "Very High")
    else if final_score ≥ 60 then (.SHOULD_HAVE, .HIGH, "High")
    else if final_score ≥ 40 then (.COULD_HAVE, .MEDIUM, "Medium")
    else (.WONT_HAVE, .LOW, "Low")
  let confidence := roundTo 2 (clamp 0 1 ((multiplier - 4/5) / (7/20)))
  { final_score := final_score
    priority_level := level_band_text.1
    priority_band := level_band_text.2.1
    priority_text := level_band_text.2.2
    confidence := confidence
    breakdown :=
      { base_pillar_score := roundTo 1 base_score
        user_demand_signal := roundTo 2 demand_component
        competitor_pressure_signal := roundTo 2 competitor_component
        effort_penalty := roundTo 2 effort_component
        evidence_multiplier := roundTo 2 multiplier
        final_score := final_score } }

/-! ### Spec-side formulations for the prioritization claims -/

/-- The five pillar keys. -/
def pillarKeys : List String :=
  ["user_value", "commercial_impact", "strategic_horizon",
   "competitive_positioning", "technical_reality"]

/-- Spec formulation: weighted average of the pillar vector with weights
`user_value:2, commercial_impact:2, strategic_horizon:1.5,
technical_reality:1.5, competitive_positioning:1` over total weight 8,
defaulting absent keys to 5. -/
def pillarWeightedAverage (m : String → Option ℚ) : ℚ :=
  (2 * pget m "user_value" 5 + 2 * pget m "commercial_impact" 5 +
   (3/2) * pget m "strategic_horizon" 5 + (3/2) * pget m "technical_reality" 5 +
   1 * pget m "competitive_positioning" 5) / 8

/-- Spec formulation: the MoSCoW band thresholds. -/
def moscowBand (s : ℚ) : PriorityLevel :=
  if s ≥ 80 then PriorityLevel.MUST_HAVE
  else if s ≥ 60 then PriorityLevel.SHOULD_HAVE
  else if s ≥ 40 then PriorityLevel.COULD_HAVE
  else PriorityLevel.WONT_HAVE

/-- Spec formulation of the v2 final score:
`round(clamp((base + 8·demand + 7·competitor − 12·effort) · clamp(multiplier,
0.85, 1.15), 0, 100), 1)` with `base` the v1 score of the same mapping. -/
def v2FinalScoreSpec (m : String → Option ℚ) (demand competitor effort multiplier : ℚ) : ℚ :=
  roundTo 1 (clamp 0 100
    (((calculate_priority m).1 + 8 * clamp 0 1 demand + 7 * clamp 0 1 competitor
        - 12 * clamp 0 1 effort) * clamp (17/20) (23/20) multiplier))

/-- Spec formulation of the v2 confidence as the claim literally states it,
applied to the raw multiplier input: `round(clamp((multiplier − 0.8)/0.35, 0,
1), 2)`. -/
def v2ConfidenceClaim (multiplier : ℚ) : ℚ :=
  roundTo 2 (clamp 0 1 ((multiplier - 4/5) / (7/20)))

/-- Amended formulation of the v2 confidence: the same formula applied to the
multiplier after its clamp to `[0.85, 1.15]`, as the code computes it. -/
def v2ConfidenceSpec (multiplier : ℚ) : ℚ :=
  roundTo 2 (clamp 0 1 ((clamp (17/20) (23/20) multiplier - 4/5) / (7/20)))

/-- C1 (counterexample): at the empty pillar mapping with all signals 0 and a
raw evidence multiplier of 0.5, the code clamps the multiplier to 0.85 before
the confidence formula and returns confidence 0.14, while the claim formula on
the raw multiplier yields 0. -/
theorem c1_confidence_counterexample :
    (calculate_priority_v2 (fun _ => none) 0 0 0 (1/2)).confidence = 7/50 ∧
    v2ConfidenceClaim (1/2) = 0 ∧ ((7:ℚ)/50) ≠ 0 := by
  refine ⟨?_, ?_, by norm_num⟩
  · simp only [calculate_priority_v2]
    norm_num [roundTo, clamp, round_eq]
  · simp only [v2ConfidenceClaim]
    norm_num [roundTo, clamp, round_eq]

/-- C1 (amended): for every pillar mapping and all rational signal inputs,
`calculate_priority_v2` returns the claimed final score, and a confidence
equal to `round(clamp((m − 0.8)/0.35, 0, 1), 2)` where `m` is the multiplier
clamped to `[0.85, 1.15]`. -/
theorem c1_v2_score_and_confidence (m : String → Option ℚ)
    (demand competitor effort multiplier : ℚ) :
    (calculate_priority_v2 m demand competitor effort multiplier).final_score
      = v2FinalScoreSpec m demand competitor effort multiplier ∧
    (calculate_priority_v2 m demand competitor effort multiplier).confidence
      = v2ConfidenceSpec multiplier := by
  constructor
  · simp only [calculate_priority_v2, v2FinalScoreSpec]
    exact congrArg (roundTo 1) (congrArg (clamp 0 100) (by ring))
  · rfl

/-- The mapping `{"user_value": 1000}`. -/
def overloadedPillarInput : String → Option ℚ
  | "user_value" => some 1000
  | _ => none

/-- C2 (counterexample): `calculate_priority` does not clamp individual pillar
values, so the mapping `{"user_value": 1000}` yields base score 2537.5,
outside `[0, 100]`. -/
theorem c2_base_score_counterexample :
    ¬ (0 ≤ (calculate_priority overloadedPillarInput).1 ∧
       (calculate_priority overloadedPillarInput).1 ≤ 100) := by
  have e1 : pget overloadedPillarInput "user_value" 5 = 1000 := rfl
  have e2 : pget overloadedPillarInput "commercial_impact" 5 = 5 := rfl
  have e3 : pget overloadedPillarInput "strategic_horizon" 5 = 5 := rfl
  have e4 : pget overloadedPillarInput "competitive_positioning" 5 = 5 := rfl
  have e5 : pget overloadedPillarInput "technical_reality" 5 = 5 := rfl
  have h : (calculate_priority overloadedPillarInput).1 = 5075/2 := by
    simp only [calculate_priority, e1, e2, e3, e4, e5]
    norm_num [roundTo, round_eq]
  rw [h]
  norm_num

theorem pget_bounds (m : String → Option ℚ) (k : String)
    (h : ∀ v, m k = some v → 0 ≤ v ∧ v ≤ 10) :
    0 ≤ pget m k 5 ∧ pget m k 5 ≤ 10 := by
  unfold pget
  cases hk : m k with
  | none => norm_num
  | some v => simpa using h v hk

/-- C2 (amended): for every input mapping whose values at the five pillar keys
(when present) lie in `[0, 10]` — unrecognized keys and all other values are
unrestricted since they are never read — the base score returned by
`calculate_priority` lies in `[0, 100]`. -/
theorem c2_base_score_in_range (m : String → Option ℚ)
    (h : ∀ k ∈ pillarKeys, ∀ v, m k = some v → 0 ≤ v ∧ v ≤ 10) :
    0 ≤ (calculate_priority m).1 ∧ (calculate_priority m).1 ≤ 100 := by
  obtain ⟨h1, h1u⟩ := pget_bounds m "user_value" (h _ (by simp [pillarKeys]))
  obtain ⟨h2, h2u⟩ := pget_bounds m "commercial_impact" (h _ (by simp [pillarKeys]))
  obtain ⟨h3, h3u⟩ := pget_bounds m "strategic_horizon" (h _ (by simp [pillarKeys]))
  obtain ⟨h4, h4u⟩ := pget_bounds m "competitive_positioning" (h _ (by simp [pillarKeys]))
  obtain ⟨h5, h5u⟩ := pget_bounds m "technical_reality" (h _ (by simp [pillarKeys]))
  set uv := pget m "user_value" 5 with huv
  set ci := pget m "commercial_impact" 5 with hci
  set sh := pget m "strategic_horizon" 5 with hsh
  set cp := pget m "competitive_positioning" 5 with hcp
  set tr := pget m "technical_reality" 5 with htr
  have hfst : (calculate_priority m).1
      = roundTo 1 ((uv * 2 + ci * 2 + sh * (3/2) + tr * (3/2) + cp * 1)
          / (2 + 2 + 3/2 + 3/2 + 1) * 10) := rfl
  have hlin : (uv * 2 + ci * 2 + sh * (3/2) + tr * (3/2) + cp * 1)
      / (2 + 2 + 3/2 + 3/2 + 1) * 10
      = (uv * 2 + ci * 2 + sh * (3/2) + tr * (3/2) + cp * 1) * (5/4) := by ring
  rw [hfst, hlin]
  constructor
  · exact roundTo_nonneg 1 (by nlinarith)
  · have hle : (uv * 2 + ci * 2 + sh * (3/2) + tr * (3/2) + cp * 1) * (5/4)
        ≤ ((100 : ℤ) : ℚ) := by
      push_cast
      nlinarith
    exact le_trans (roundTo_le_of_le_int 1 100 hle) (by norm_num)

/-- C2 witness: the amended theorem applied to the empty mapping. -/
theorem c2_base_score_in_range_witness :
    0 ≤ (calculate_priority (fun _ => none)).1 ∧
    (calculate_priority (fun _ => none)).1 ≤ 100 :=
  c2_base_score_in_range (fun _ => none) (fun _ _ v hv => by simp at hv)

/-- C3: `calculate_priority` returns exactly the 1-decimal rounding of ten
times the weighted pillar average, bands that scaled average at the 80/60/40
thresholds, and maps the empty pillar mapping to `(50.0, COULD_HAVE)`. -/
theorem c3_base_score_formula (m : String → Option ℚ) :
    calculate_priority m
      = (roundTo 1 (10 * pillarWeightedAverage m),
         moscowBand (10 * pillarWeightedAverage m)) ∧
    calculate_priority (fun _ => none) = (50, PriorityLevel.COULD_HAVE) := by
  constructor
  · have key : (pget m "user_value" 5 * 2 + pget m "commercial_impact" 5 * 2 +
        pget m "strategic_horizon" 5 * (3/2) + pget m "technical_reality" 5 * (3/2) +
        pget m "competitive_positioning" 5 * 1) / (2 + 2 + 3/2 + 3/2 + 1) * 10
        = 10 * pillarWeightedAverage m := by
      unfold pillarWeightedAverage
      ring
    simp only [calculate_priority, moscowBand, key]
  · have h5 : pget (fun _ => none) "user_value" 5 = 5 := rfl
    simp only [calculate_priority, moscowBand, pget, Option.getD]
    norm_num [roundTo, round_eq]

/-! ### `app/services/quality_engine.py` — `evaluate_story_v2` -/

structure QualityBreakdown where
  clarity : ℚ
  invest : ℚ
  testability : ℚ
  measurability : ℚ
  scope : ℚ
  evidence : ℚ
  final_score : ℚ
deriving DecidableEq, Repr

structure RoleScores where
  pm_clarity : ℚ
  engineering_estimability : ℚ
  qa_testability : ℚ
  architecture_nfr_readiness : ℚ
deriving DecidableEq, Repr

structure QualityEvalResult where
  warnings : List QualityWarning
  warnings_text : List String
  quality_score : ℚ
  quality_confidence : ℚ
  quality_breakdown : QualityBreakdown
  role_scores : RoleScores
  execution_readiness_score : ℚ
deriving DecidableEq, Repr

/-- Condition of the `summary_missing_or_weak` rule. -/
def summaryWeak (summary : String) : Prop := summary = "" ∨ (pyStrip summary).length < 8

instance (summary : String) : Decidable (summaryWeak summary) := by
  unfold summaryWeak
  infer_instance

/-- Summary rules of `evaluate_story_v2` (warnings, clarity before clamping). -/
def summaryRules (summary : String) : List QualityWarning × ℚ :=
  if summaryWeak summary then
    ([⟨"summary_missing_or_weak", .CLARITY, .HIGH, "Summary is missing or too weak."⟩],
     100 - 35)
  else if summary.length > 120 then
    ([⟨"summary_too_long", .CLARITY, .MEDIUM, "Summary is too long. Tighten scope."⟩],
     100 - 15)
  else ([], 100)

/-- The implementation-disclosure term set of `evaluate_story_v2`. -/
def solution_terms : List String :=
  ["implement", "build", "database", "endpoint", "api", "schema", "table",
   "microservice", "backend", "frontend", "refactor"]

/-- Condition of the `story_not_invest_format` rule: the lowercased narrative
misses at least one of the three phrases (with their surrounding spaces). -/
def storyFormatMissing (user_story : String) : Bool :=
  let lower_story := pyLower user_story
  !occursIn "as a " lower_story || !occursIn " i want " lower_story ||
    !occursIn " so that " lower_story

/-- Condition of the `story_solution_focused` rule. -/
def storySolutionFocused (user_story : String) : Bool :=
  solution_terms.any (fun term => occursIn term (pyLower user_story))

/-- The warning appended by the `story_not_invest_format` rule. -/
def storyFormatWarning : QualityWarning :=
  ⟨"story_not_invest_format", .INVEST, .HIGH,
   "User story should follow As a... I want... so that..."⟩

/-- Narrative rules of `evaluate_story_v2` (warnings, invest before clamping). -/
def storyRules (user_story : String) : List QualityWarning × ℚ :=
  let w1 := if storyFormatMissing user_story then [storyFormatWarning] else []
  let p1 : ℚ := if storyFormatMissing user_story then 35 else 0
  let w2 := if storySolutionFocused user_story then
      [⟨"story_solution_focused", .INVEST, .MEDIUM,
        "Story appears implementation-focused; keep solution details in tasks."⟩]
    else []
  let p2 : ℚ := if storySolutionFocused user_story then 18 else 0
  (w1 ++ w2, 100 - p1 - p2)

/-- `[item.strip() for item in xs if item and item.strip()]`. -/
def strippedNonEmpty (xs : List String) : List String :=
  (xs.filter (fun item => !(item == "") && !(pyStrip item == ""))).map pyStrip

/-- Acceptance-criteria rules of `evaluate_story_v2`
(warnings, testability before clamping, scope penalty of `ac_too_many`). -/
def acRules (acceptance_criteria : List String) : List QualityWarning × ℚ × ℚ :=
  let ac_list := strippedNonEmpty acceptance_criteria
  if ac_list.isEmpty then
    ([⟨"ac_missing", .TESTABILITY, .HIGH, "Acceptance criteria are missing."⟩],
     100 - 45, 0)
  else
    let w2 := if ac_list.length < 3 then
        [⟨"ac_too_few", .TESTABILITY, .MEDIUM,
          "Acceptance criteria are thin. Add additional scenarios."⟩]
      else []
    let p2 : ℚ := if ac_list.length < 3 then 18 else 0
    let w3 := if ac_list.length > 6 then
        [⟨"ac_too_many", .SCOPE, .LOW,
          "Too many acceptance criteria for one story. Consider splitting."⟩]
      else []
    let sp : ℚ := if ac_list.length > 6 then 10 else 0
    let invalid_gherkin := ac_list.filter (fun ac =>
      !occursIn "given" (pyLower ac) || !occursIn "when" (pyLower ac) ||
        !occursIn "then" (pyLower ac))
    let w4 := if !invalid_gherkin.isEmpty then
        [⟨"ac_not_gherkin", .TESTABILITY, .MEDIUM,
          "Some acceptance criteria are not in Given/When/Then format."⟩]
      else []
    let p4 : ℚ := if !invalid_gherkin.isEmpty then 20 else 0
    let w5 := if (ac_list.map pyLower).dedup.length ≠ ac_list.length then
        [⟨"ac_duplicates", .TESTABILITY, .LOW, "Duplicate acceptance criteria detected."⟩]
      else []
    let p5 : ℚ := if (ac_list.map pyLower).dedup.length ≠ ac_list.length then 8 else 0
    (w2 ++ w3 ++ w4 ++ w5, 100 - p2 - p4 - p5, sp)

/-- Metric rules of `evaluate_story_v2` (warnings, measurability before
clamping). -/
def metricsRules (metrics : List String) : List QualityWarning × ℚ :=
  let metric_list := strippedNonEmpty metrics
  if metric_list.isEmpty then
    ([⟨"metrics_missing", .MEASURABILITY, .MEDIUM, "Success metrics are missing."⟩],
     100 - 28)
  else if metric_list.length < 2 then
    ([⟨"metrics_thin", .MEASURABILITY, .LOW,
      "Only one metric found. Consider adding adoption plus quality metrics."⟩],
     100 - 10)
  else ([], 100)

/-- Non-functional-requirement rule (warnings, scope penalty). -/
def nfrRules (non_functional_reqs : List String) : List QualityWarning × ℚ :=
  if non_functional_reqs.isEmpty then
    ([⟨"nfr_missing", .NFR, .MEDIUM, "Non-functional requirements are missing."⟩], 12)
  else ([], 0)

/-- Dependency rule (warnings, scope penalty). -/
def depsRules (dependencies : List String) : List QualityWarning × ℚ :=
  if !dependencies.isEmpty && dependencies.length > 3 then
    ([⟨"dependencies_many", .SCOPE, .MEDIUM,
      "Story has many dependencies. Consider splitting scope."⟩], 18)
  else ([], 0)

/-- The clarity dimension after the final clamp (source line 246). -/
def clarityDim (summary : String) : ℚ := clamp 0 100 (summaryRules summary).2

/-- The invest dimension after the final clamp (source line 247). -/
def investDim (user_story : String) : ℚ := clamp 0 100 (storyRules user_story).2

/-- The testability dimension after the final clamp (source line 248). -/
def testabilityDim (acceptance_criteria : List String) : ℚ :=
  clamp 0 100 (acRules acceptance_criteria).2.1

/-- The measurability dimension after the final clamp (source line 249). -/
def measurabilityDim (metrics : List String) : ℚ :=
  clamp 0 100 (metricsRules metrics).2

/-- The scope dimension after the final clamp (source line 250). -/
def scopeDim (acceptance_criteria non_functional_reqs dependencies : List String) : ℚ :=
  clamp 0 100 (100 - (acRules acceptance_criteria).2.2
    - (nfrRules non_functional_reqs).2 - (depsRules dependencies).2)

/-- The evidence dimension: scaled on entry (source line 93) and clamped again
with the other dimensions (source line 251). -/
def evidenceDim (evidence_signal : ℚ) : ℚ :=
  clamp 0 100 (clamp 0 100 (evidence_signal * 100))

/-- `QualityValidationEngine.evaluate_story_v2` (source lines 77-298). -/
def evaluate_story_v2 (summary user_story : String)
    (acceptance_criteria dependencies metrics non_functional_reqs : List String)
    (evidence_signal : ℚ) : QualityEvalResult :=
  let warnings := (summaryRules summary).1 ++ (storyRules user_story).1 ++
    (acRules acceptance_criteria).1 ++ (metricsRules metrics).1 ++
    (nfrRules non_functional_reqs).1 ++ (depsRules dependencies).1
  let clarity := clarityDim summary
  let invest := investDim user_story
  let testability := testabilityDim acceptance_criteria
  let measurability := measurabilityDim metrics
  let scope := scopeDim acceptance_criteria non_functional_reqs dependencies
  let evidence := evidenceDim evidence_signal
  let quality_score := roundTo 1 ((clarity * 0.2) + (invest * 0.2) + (testability * 0.2)
    + (measurability * 0.15) + (scope * 0.15) + (evidence * 0.1))
  let quality_confidence := roundTo 2 (clamp 0 1 ((evidence / 100) * 0.6 + 0.4))
  let role_scores : RoleScores :=
    { pm_clarity := roundTo 1 ((clarity * 0.5) + (invest * 0.5))
      engineering_estimability := roundTo 1 ((scope * 0.55) + (measurability * 0.45))
      qa_testability := roundTo 1 ((testability * 0.7) + (measurability * 0.3))
      architecture_nfr_readiness := roundTo 1 ((scope * 0.6)
        + (if non_functional_reqs.isEmpty then (55 : ℚ) else 100) * 0.4) }
  let execution_readiness_score := roundTo 1 ((role_scores.pm_clarity * 0.3)
    + (role_scores.engineering_estimability * 0.3)
    + (role_scores.qa_testability * 0.25)
    + (role_scores.architecture_nfr_readiness * 0.15))
  { warnings := warnings
    warnings_text := warnings.map (fun w => w.message)
    quality_score := quality_score
    quality_confidence := quality_confidence
    quality_breakdown :=
      { clarity := roundTo 1 clarity
        invest := roundTo 1 invest
        testability := roundTo 1 testability
        measurability := roundTo 1 measurability
        scope := roundTo 1 scope
        evidence := roundTo 1 evidence
        final_score := quality_score }
    role_scores := role_scores
    execution_readiness_score := execution_readiness_score }

/-- The predicate selecting `story_not_invest_format` warnings. -/
def isStoryFormatWarning (w : QualityWarning) : Bool := w.code == "story_not_invest_format"

theorem countP_format_summaryRules (s : String) :
    ((summaryRules s).1).countP isStoryFormatWarning = 0 := by
  simp only [summaryRules]
  split_ifs <;> rfl

theorem countP_format_storyRules (us : String) :
    ((storyRules us).1).countP isStoryFormatWarning
      = if storyFormatMissing us then 1 else 0 := by
  simp only [storyRules]
  split_ifs <;> rfl

theorem countP_format_acRules (ac : List String) :
    ((acRules ac).1).countP isStoryFormatWarning = 0 := by
  simp only [acRules]
  split_ifs <;> rfl

theorem countP_format_metricsRules (ms : List String) :
    ((metricsRules ms).1).countP isStoryFormatWarning = 0 := by
  simp only [metricsRules]
  split_ifs <;> rfl

theorem countP_format_nfrRules (ns : List String) :
    ((nfrRules ns).1).countP isStoryFormatWarning = 0 := by
  simp only [nfrRules]
  split_ifs <;> rfl

theorem countP_format_depsRules (ds : List String) :
    ((depsRules ds).1).countP isStoryFormatWarning = 0 := by
  simp only [depsRules]
  split_ifs <;> rfl

/-- C4 (counterexample): the narrative `"As a user."` contains the phrase
`"as a"` (case-insensitively), yet `evaluate_story_v2` still appends the
high-severity invest-format warning, because the code fires the rule whenever
ANY of the three phrases is missing, not only when all three are. -/
theorem c4_format_rule_counterexample :
    occursIn "as a" (pyLower "As a user.") = true ∧
    storyFormatWarning ∈ (evaluate_story_v2 "A long enough summary" "As a user."
      ["Given a, When b, Then c", "Given d, When e, Then f", "Given g, When h, Then i"]
      [] ["m1", "m2"] ["nfr"] 0).warnings := by
  constructor
  · decide
  · decide

/-- C4 (amended): `evaluate_story_v2` deducts 35 from the invest dimension and
appends exactly one high-severity invest warning if and only if the lowercased
narrative fails to contain at least one of the exact substrings `"as a "`,
`" i want "`, `" so that "` (note the surrounding spaces); when all three are
present no such warning is produced, and the invest dimension carries only the
solution-focus penalty. -/
theorem c4_format_rule (summary user_story : String)
    (acceptance_criteria dependencies metrics non_functional_reqs : List String)
    (evidence_signal : ℚ) :
    (storyFormatMissing user_story = true →
      ((evaluate_story_v2 summary user_story acceptance_criteria dependencies
        metrics non_functional_reqs evidence_signal).warnings.countP
          isStoryFormatWarning = 1 ∧
       storyFormatWarning ∈ (evaluate_story_v2 summary user_story acceptance_criteria
        dependencies metrics non_functional_reqs evidence_signal).warnings)) ∧
    (storyFormatMissing user_story = false →
      (evaluate_story_v2 summary user_story acceptance_criteria dependencies
        metrics non_functional_reqs evidence_signal).warnings.countP
          isStoryFormatWarning = 0) ∧
    (evaluate_story_v2 summary user_story acceptance_criteria dependencies
      metrics non_functional_reqs evidence_signal).quality_breakdown.invest
      = roundTo 1 (clamp 0 100 (100 - (if storyFormatMissing user_story then (35:ℚ) else 0)
          - (if storySolutionFocused user_story then (18:ℚ) else 0))) := by
  refine ⟨fun h => ⟨?_, ?_⟩, fun h => ?_, rfl⟩
  · simp only [evaluate_story_v2, List.countP_append, countP_format_summaryRules,
      countP_format_storyRules, countP_format_acRules, countP_format_metricsRules,
      countP_format_nfrRules, countP_format_depsRules, h, if_true]
  · simp only [evaluate_story_v2, storyRules, h, if_true, List.mem_append, List.mem_cons]
    tauto
  · simp only [evaluate_story_v2, List.countP_append, countP_format_summaryRules,
      countP_format_storyRules, countP_format_acRules, countP_format_metricsRules,
      countP_format_nfrRules, countP_format_depsRules, h, if_false]
    norm_num

/-- C4 witness: the amended theorem applied to the narrative `"Hello"`, which
lacks all three phrases. -/
theorem c4_format_rule_witness :
    (evaluate_story_v2 "A long enough summary" "Hello" [] [] [] [] 0).warnings.countP
      isStoryFormatWarning = 1 ∧
    storyFormatWarning ∈
      (evaluate_story_v2 "A long enough summary" "Hello" [] [] [] [] 0).warnings :=
  (c4_format_rule "A long enough summary" "Hello" [] [] [] [] 0).1 (by decide)

theorem roundTo_clamp100_bounds (d : ℕ) (x : ℚ) :
    0 ≤ roundTo d (clamp 0 100 x) ∧ roundTo d (clamp 0 100 x) ≤ 100 := by
  constructor
  · exact roundTo_nonneg d (le_clamp _ _ _)
  · refine le_trans (roundTo_le_of_le_int d 100 ?_) (by norm_num)
    push_cast
    exact clamp_le 0 100 x (by norm_num)

/-- C5: every dimension of the returned `QualityBreakdown` lies in `[0, 100]`
after all penalty rules, the evidence dimension equals the evidence signal
scaled by 100 and clamped to `[0, 100]`, and the final quality score is
`round(0.2·clarity + 0.2·invest + 0.2·testability + 0.15·measurability +
0.15·scope + 0.1·evidence, 1)` of the clamped dimensions. -/
theorem c5_dimensions_and_score (summary user_story : String)
    (acceptance_criteria dependencies metrics non_functional_reqs : List String)
    (evidence_signal : ℚ) :
    (0 ≤ (evaluate_story_v2 summary user_story acceptance_criteria dependencies
        metrics non_functional_reqs evidence_signal).quality_breakdown.clarity ∧
      (evaluate_story_v2 summary user_story acceptance_criteria dependencies
        metrics non_functional_reqs evidence_signal).quality_breakdown.clarity ≤ 100) ∧
    (0 ≤ (evaluate_story_v2 summary user_story acceptance_criteria dependencies
        metrics non_functional_reqs evidence_signal).quality_breakdown.invest ∧
      (evaluate_story_v2 summary user_story acceptance_criteria dependencies
        metrics non_functional_reqs evidence_signal).quality_breakdown.invest ≤ 100) ∧
    (0 ≤ (evaluate_story_v2 summary user_story acceptance_criteria dependencies
        metrics non_functional_reqs evidence_signal).quality_breakdown.testability ∧
      (evaluate_story_v2 summary user_story acceptance_criteria dependencies
        metrics non_functional_reqs evidence_signal).quality_breakdown.testability ≤ 100) ∧
    (0 ≤ (evaluate_story_v2 summary user_story acceptance_criteria dependencies
        metrics non_functional_reqs evidence_signal).quality_breakdown.measurability ∧
      (evaluate_story_v2 summary user_story acceptance_criteria dependencies
        metrics non_functional_reqs evidence_signal).quality_breakdown.measurability ≤ 100) ∧
    (0 ≤ (evaluate_story_v2 summary user_story acceptance_criteria dependencies
        metrics non_functional_reqs evidence_signal).quality_breakdown.scope ∧
      (evaluate_story_v2 summary user_story acceptance_criteria dependencies
        metrics non_functional_reqs evidence_signal).quality_breakdown.scope ≤ 100) ∧
    (0 ≤ (evaluate_story_v2 summary user_story acceptance_criteria dependencies
        metrics non_functional_reqs evidence_signal).quality_breakdown.evidence ∧
      (evaluate_story_v2 summary user_story acceptance_criteria dependencies
        metrics non_functional_reqs evidence_signal).quality_breakdown.evidence ≤ 100) ∧
    evidenceDim evidence_signal = clamp 0 100 (evidence_signal * 100) ∧
    (evaluate_story_v2 summary user_story acceptance_criteria dependencies
        metrics non_functional_reqs evidence_signal).quality_score
      = roundTo 1 (0.2 * clarityDim summary + 0.2 * investDim user_story
          + 0.2 * testabilityDim acceptance_criteria + 0.15 * measurabilityDim metrics
          + 0.15 * scopeDim acceptance_criteria non_functional_reqs dependencies
          + 0.1 * evidenceDim evidence_signal) := by
  refine ⟨roundTo_clamp100_bounds 1 _, roundTo_clamp100_bounds 1 _,
    roundTo_clamp100_bounds 1 _, roundTo_clamp100_bounds 1 _,
    roundTo_clamp100_bounds 1 _, ?_, clamp_idem 0 100 _ (by norm_num), ?_⟩
  · exact roundTo_clamp100_bounds 1 _
  · exact congrArg (roundTo 1) (by ring)

/-- C10: for every input, the quality confidence returned by
`evaluate_story_v2` lies in `[0.4, 1]`: the evidence dimension is clamped to
`[0, 100]` before the confidence formula `0.6·(evidence/100) + 0.4`, so the
documented clamp to `[0, 1]` never binds below 0.4. -/
theorem c10_quality_confidence_range (summary user_story : String)
    (acceptance_criteria dependencies metrics non_functional_reqs : List String)
    (evidence_signal : ℚ) :
    (0.4 : ℚ) ≤ (evaluate_story_v2 summary user_story acceptance_criteria dependencies
        metrics non_functional_reqs evidence_signal).quality_confidence ∧
    (evaluate_story_v2 summary user_story acceptance_criteria dependencies
        metrics non_functional_reqs evidence_signal).quality_confidence ≤ 1 := by
  have he0 : 0 ≤ evidenceDim evidence_signal := le_clamp _ _ _
  have he1 : evidenceDim evidence_signal ≤ 100 :=
    clamp_le _ _ _ (by norm_num)
  have hraw0 : (0.4 : ℚ) ≤ (evidenceDim evidence_signal / 100) * 0.6 + 0.4 := by
    have : (evidenceDim evidence_signal / 100) * 0.6
        = evidenceDim evidence_signal * (3/500) := by ring
    rw [this]
    nlinarith
  have hraw1 : (evidenceDim evidence_signal / 100) * 0.6 + 0.4 ≤ 1 := by
    have : (evidenceDim evidence_signal / 100) * 0.6
        = evidenceDim evidence_signal * (3/500) := by ring
    rw [this]
    nlinarith
  have hclamp : clamp 0 1 ((evidenceDim evidence_signal / 100) * 0.6 + 0.4)
      = (evidenceDim evidence_signal / 100) * 0.6 + 0.4 :=
    clamp_of_mem 0 1 _ (by linarith) hraw1
  have hconf : (evaluate_story_v2 summary user_story acceptance_criteria dependencies
      metrics non_functional_reqs evidence_signal).quality_confidence
      = roundTo 2 (clamp 0 1 ((evidenceDim evidence_signal / 100) * 0.6 + 0.4)) := rfl
  rw [hconf, hclamp]
  constructor
  · calc (0.4 : ℚ) = roundTo 2 (0.4 : ℚ) := by norm_num [roundTo, round_eq]
      _ ≤ roundTo 2 ((evidenceDim evidence_signal / 100) * 0.6 + 0.4) :=
        roundTo_mono 2 hraw0
  · exact le_trans (roundTo_le_of_le_int 2 1 (by push_cast; exact hraw1)) (by norm_num)

/-! ### Dynamic Python values, for the draft dictionaries -/

/-- A fragment of Python runtime values sufficient for the draft payloads:
`None`, strings, numbers, booleans, lists and string-keyed dictionaries. -/
inductive PyVal where
  | none
  | str (s : String)
  | num (q : ℚ)
  | bool (b : Bool)
  | list (xs : List PyVal)
  | dict (entries : List (String × PyVal))

/-- Python's `value in (None, "", [], {})` membership test used by
`_safe_merge_revision`: equality against `None`, the empty string, the empty
list and the empty dict (numbers and booleans never compare equal to any of
those four). -/
def isEmptyFalsy : PyVal → Bool
  | .none => true
  | .str s => s == ""
  | .list xs => xs.isEmpty
  | .dict entries => entries.isEmpty
  | _ => false

/-- `revised.get(key) in (None, "", [], {})`: an absent key yields `None`,
which is in the tuple. -/
def isEmptyFalsyOpt : Option PyVal → Bool
  | Option.none => true
  | Option.some v => isEmptyFalsy v

/-- `draft.get(key)` with Python's `None` default. -/
def pyGetD (m : String → Option PyVal) (k : String) : PyVal := (m k).getD .none

/-! ### `app/services/story_engine.py` — `_safe_merge_revision` -/

/-- The critical fields preserved by the revision merge (source lines 260-268). -/
def critical_fields : List String :=
  ["research_summary", "pillar_scores", "dependencies", "metrics",
   "structured_metrics", "acceptance_criteria", "non_functional_reqs"]

/-- `StoryGenerationEngine._safe_merge_revision` (source lines 255-273):
`merged = dict(draft); merged.update(revised)`, then every critical field whose
revised value is empty/falsy is re-assigned from `draft.get(key)`. -/
def safe_merge_revision (draft revised : String → Option PyVal) :
    String → Option PyVal := fun k =>
  let updated := match revised k with
    | Option.some v => Option.some v
    | Option.none => draft k
  if k ∈ critical_fields ∧ isEmptyFalsyOpt (revised k) then Option.some (pyGetD draft k)
  else updated

/-- C6: for each of the seven critical fields, an empty/falsy revised value
(absent, `None`, `""`, `[]` or `{}`) makes the merge carry the original
draft's value for that field; every field of the revised draft that is not a
critical field with an empty/falsy value fully overwrites the original's
value. -/
theorem c6_safe_merge_revision (draft revised : String → Option PyVal) (k : String) :
    (k ∈ critical_fields → isEmptyFalsyOpt (revised k) = true →
      safe_merge_revision draft revised k = Option.some (pyGetD draft k)) ∧
    (∀ v, revised k = Option.some v →
      (k ∉ critical_fields ∨ isEmptyFalsy v = false) →
      safe_merge_revision draft revised k = Option.some v) := by
  constructor
  · intro hk hfalsy
    simp only [safe_merge_revision, if_pos (And.intro hk hfalsy)]
  · intro v hv hother
    simp only [safe_merge_revision, hv]
    rw [if_neg]
    rintro ⟨hk, hf⟩
    rcases hother with hnc | hnf
    · exact hnc hk
    · simp only [isEmptyFalsyOpt, hnf] at hf
      exact Bool.false_ne_true hf

/-- A draft with three acceptance criteria and a revision that erases them. -/
def sampleDraft : String → Option PyVal := fun k =>
  if k = "acceptance_criteria" then
    Option.some (.list [.str "Given a, When b, Then c"])
  else if k = "summary" then Option.some (.str "Original summary")
  else Option.none

/-- The degenerate revision: empty acceptance criteria, new summary. -/
def sampleRevision : String → Option PyVal := fun k =>
  if k = "acceptance_criteria" then Option.some (.list [])
  else if k = "summary" then Option.some (.str "Revised summary")
  else Option.none

/-- C6 witness: the merge theorem applied to a revised draft whose
`acceptance_criteria` is the empty list — the merge keeps the original
criteria, while the non-critical `summary` is overwritten. -/
theorem c6_safe_merge_revision_witness :
    safe_merge_revision sampleDraft sampleRevision "acceptance_criteria"
      = Option.some (pyGetD sampleDraft "acceptance_criteria") ∧
    safe_merge_revision sampleDraft sampleRevision "summary"
      = Option.some (.str "Revised summary") :=
  ⟨(c6_safe_merge_revision sampleDraft sampleRevision "acceptance_criteria").1
      (by decide) (by rfl),
   (c6_safe_merge_revision sampleDraft sampleRevision "summary").2
      (.str "Revised summary") (by rfl) (Or.inr (by rfl))⟩

/-! ### Python `float(value)` coercion, as used by the pillar normalizers -/

/-- Numeric value of a digit run, in `ℚ`. -/
def digitsVal (cs : List Char) : ℚ :=
  cs.foldl (fun acc c => acc * 10 + ((c.toNat - 48 : ℕ) : ℚ)) 0

/-- Decimal-literal fragment of Python `float(str)` after sign splitting:
digits with an optional decimal point (at least one digit overall).
Exponents and the special spellings are not used by any caller and are
treated as non-coercible. -/
def parseDecimalCore (cs : List Char) : Option ℚ :=
  let intPart := cs.takeWhile (fun c => c.isDigit)
  let rest := cs.dropWhile (fun c => c.isDigit)
  match rest with
  | [] => if intPart.isEmpty then Option.none else Option.some (digitsVal intPart)
  | '.' :: frac =>
      if frac.all (fun c => c.isDigit) && !(intPart.isEmpty && frac.isEmpty) then
        Option.some (digitsVal intPart + digitsVal frac / 10 ^ frac.length)
      else Option.none
  | _ => Option.none

/-- Python `float(s)` for a string: surrounding whitespace stripped, optional
sign, decimal literal. -/
def pyFloatOfString (s : String) : Option ℚ :=
  match (pyStrip s).data with
  | '+' :: rest => parseDecimalCore rest
  | '-' :: rest => (parseDecimalCore rest).map Neg.neg
  | cs => parseDecimalCore cs

/-- Python `float(value)`: numbers pass through, booleans coerce to 0/1,
strings are parsed; `None`, lists and dicts raise `TypeError`, which both
normalizers catch — modelled as `none`. -/
def pyFloat : PyVal → Option ℚ
  | .num q => Option.some q
  | .bool b => Option.some (if b then 1 else 0)
  | .str s => pyFloatOfString s
  | _ => Option.none

/-- `value is None`. -/
def isNone : PyVal → Bool
  | .none => true
  | _ => false

/-! ### `app/main.py` `_normalize_pillar_scores` and
`app/services/story_engine.py` `_sanitize_pillar_scores` -/

structure PillarScores where
  user_value : ℚ
  commercial_impact : ℚ
  strategic_horizon : ℚ
  competitive_positioning : ℚ
  technical_reality : ℚ
deriving DecidableEq, Repr

/-- The defaults dictionary: every pillar starts at 5.0. -/
def pillarDefaults : PillarScores := ⟨5, 5, 5, 5, 5⟩

/-- `defaults[key] = v` for one of the five pillar keys. -/
def setPillar (p : PillarScores) (k : String) (v : ℚ) : PillarScores :=
  if k = "user_value" then { p with user_value := v }
  else if k = "commercial_impact" then { p with commercial_impact := v }
  else if k = "strategic_horizon" then { p with strategic_horizon := v }
  else if k = "competitive_positioning" then { p with competitive_positioning := v }
  else if k = "technical_reality" then { p with technical_reality := v }
  else p

/-- `defaults[key]` for one of the five pillar keys. -/
def getPillar (p : PillarScores) (k : String) : ℚ :=
  if k = "user_value" then p.user_value
  else if k = "commercial_impact" then p.commercial_impact
  else if k = "strategic_horizon" then p.strategic_horizon
  else if k = "competitive_positioning" then p.competitive_positioning
  else p.technical_reality

/-- One iteration of the `for key, value in scores.items()` loop of
`_normalize_pillar_scores` (source lines 427-434): skip unrecognized keys and
`None` values, otherwise coerce, clamp to `[0, 10]` and assign; coercion
failure skips. -/
def normalizeStep (acc : PillarScores) (kv : String × PyVal) : PillarScores :=
  if kv.1 ∉ pillarKeys ∨ isNone kv.2 then acc
  else match pyFloat kv.2 with
    | Option.some q => setPillar acc kv.1 (clamp 0 10 q)
    | Option.none => acc

/-- `app/main.py` `_normalize_pillar_scores` (source lines 419-435); the input
dictionary is an association list, `Option.none` standing for Python `None`
(for which the `if scores:` guard skips the loop, as it does for `{}`). -/
def normalize_pillar_scores (scores : Option (List (String × PyVal))) : PillarScores :=
  match scores with
  | Option.none => pillarDefaults
  | Option.some entries => entries.foldl normalizeStep pillarDefaults

/-- Per-key body of `_sanitize_pillar_scores` (source lines 170-177):
`raw_scores.get(key)` when `raw_scores` is a dict else `None`; `None` keeps
the default; otherwise coerce, clamp, and fall back to the default on
coercion failure. -/
def sanitizeOnePillar (raw_scores : PyVal) (k : String) : ℚ :=
  let value : PyVal := match raw_scores with
    | .dict entries => (List.lookup k entries).getD .none
    | _ => .none
  if isNone value then 5
  else match pyFloat value with
    | Option.some q => clamp 0 10 q
    | Option.none => 5

/-- `app/services/story_engine.py` `_sanitize_pillar_scores`
(source lines 161-178). -/
def sanitize_pillar_scores (raw_scores : PyVal) : PillarScores :=
  { user_value := sanitizeOnePillar raw_scores "user_value"
    commercial_impact := sanitizeOnePillar raw_scores "commercial_impact"
    strategic_horizon := sanitizeOnePillar raw_scores "strategic_horizon"
    competitive_positioning := sanitizeOnePillar raw_scores "competitive_positioning"
    technical_reality := sanitizeOnePillar raw_scores "technical_reality" }

/-- Spec-side description of one normalized pillar: a missing value or a value
Python cannot coerce yields the default 5.0, a coercible value is clamped to
`[0, 10]`. -/
def expectedPillar : Option PyVal → ℚ
  | Option.none => 5
  | Option.some v =>
      match pyFloat v with
      | Option.some q => clamp 0 10 q
      | Option.none => 5

theorem expectedPillar_bounds (o : Option PyVal) :
    0 ≤ expectedPillar o ∧ expectedPillar o ≤ 10 := by
  rcases o with _ | v
  · norm_num [expectedPillar]
  · simp only [expectedPillar]
    rcases h : pyFloat v with _ | q
    · norm_num
    · exact ⟨le_clamp _ _ _, clamp_le _ _ _ (by norm_num)⟩

theorem getPillar_setPillar_self (p : PillarScores) (k : String) (v : ℚ)
    (hk : k ∈ pillarKeys) : getPillar (setPillar p k v) k = v := by
  fin_cases hk <;> rfl

theorem setPillar_user_value (p : PillarScores) (j : String) (v : ℚ)
    (h : j ≠ "user_value") : (setPillar p j v).user_value = p.user_value := by
  unfold setPillar
  split_ifs <;> first | rfl | simp_all

theorem setPillar_commercial_impact (p : PillarScores) (j : String) (v : ℚ)
    (h : j ≠ "commercial_impact") :
    (setPillar p j v).commercial_impact = p.commercial_impact := by
  unfold setPillar
  split_ifs <;> first | rfl | simp_all

theorem setPillar_strategic_horizon (p : PillarScores) (j : String) (v : ℚ)
    (h : j ≠ "strategic_horizon") :
    (setPillar p j v).strategic_horizon = p.strategic_horizon := by
  unfold setPillar
  split_ifs <;> first | rfl | simp_all

theorem setPillar_competitive_positioning (p : PillarScores) (j : String) (v : ℚ)
    (h : j ≠ "competitive_positioning") :
    (setPillar p j v).competitive_positioning = p.competitive_positioning := by
  unfold setPillar
  split_ifs <;> first | rfl | simp_all

theorem setPillar_technical_reality (p : PillarScores) (j : String) (v : ℚ)
    (h : j ≠ "technical_reality") :
    (setPillar p j v).technical_reality = p.technical_reality := by
  unfold setPillar
  split_ifs <;> first | rfl | simp_all

theorem getPillar_user_value (p : PillarScores) :
    getPillar p "user_value" = p.user_value := rfl

theorem getPillar_commercial_impact (p : PillarScores) :
    getPillar p "commercial_impact" = p.commercial_impact := rfl

theorem getPillar_strategic_horizon (p : PillarScores) :
    getPillar p "strategic_horizon" = p.strategic_horizon := rfl

theorem getPillar_competitive_positioning (p : PillarScores) :
    getPillar p "competitive_positioning" = p.competitive_positioning := rfl

theorem getPillar_technical_reality (p : PillarScores) :
    getPillar p "technical_reality" = p.technical_reality := rfl

theorem getPillar_setPillar_ne (p : PillarScores) (j k : String) (v : ℚ)
    (hk : k ∈ pillarKeys) (h : j ≠ k) :
    getPillar (setPillar p j v) k = getPillar p k := by
  fin_cases hk
  · rw [getPillar_user_value, getPillar_user_value, setPillar_user_value p j v h]
  · rw [getPillar_commercial_impact, getPillar_commercial_impact,
      setPillar_commercial_impact p j v h]
  · rw [getPillar_strategic_horizon, getPillar_strategic_horizon,
      setPillar_strategic_horizon p j v h]
  · rw [getPillar_competitive_positioning, getPillar_competitive_positioning,
      setPillar_competitive_positioning p j v h]
  · rw [getPillar_technical_reality, getPillar_technical_reality,
      setPillar_technical_reality p j v h]

theorem normalizeStep_getPillar_ne (acc : PillarScores) (kv : String × PyVal)
    (k : String) (hk : k ∈ pillarKeys) (h : kv.1 ≠ k) :
    getPillar (normalizeStep acc kv) k = getPillar acc k := by
  unfold normalizeStep
  split_ifs with h1
  · rfl
  · rcases pyFloat kv.2 with _ | q
    · rfl
    · exact getPillar_setPillar_ne acc kv.1 k _ hk h

/-- The spec-side value produced by one loop iteration that did find the key,
starting from the current field value `cur`. -/
def stepValue (cur : ℚ) (v : PyVal) : ℚ :=
  if isNone v then cur
  else match pyFloat v with
    | Option.some q => clamp 0 10 q
    | Option.none => cur

theorem normalizeStep_getPillar_self (acc : PillarScores) (k : String) (v : PyVal)
    (hk : k ∈ pillarKeys) :
    getPillar (normalizeStep acc (k, v)) k = stepValue (getPillar acc k) v := by
  unfold normalizeStep stepValue
  by_cases hn : isNone v = true
  · rw [if_pos (Or.inr hn), if_pos hn]
  · rw [if_neg (fun hor => hor.elim (fun hk' => hk' hk) hn), if_neg hn]
    rcases pyFloat v with _ | q
    · rfl
    · exact getPillar_setPillar_self acc k _ hk

theorem foldl_normalizeStep_untouched (entries : List (String × PyVal))
    (acc : PillarScores) (k : String) (hk : k ∈ pillarKeys)
    (habs : k ∉ entries.map Prod.fst) :
    getPillar (entries.foldl normalizeStep acc) k = getPillar acc k := by
  induction entries generalizing acc with
  | nil => rfl
  | cons kv rest ih =>
      simp only [List.map_cons, List.mem_cons] at habs
      push_neg at habs
      rw [List.foldl_cons, ih _ habs.2,
        normalizeStep_getPillar_ne acc kv k hk (fun he => habs.1 he.symm)]

theorem foldl_normalizeStep_lookup (entries : List (String × PyVal))
    (acc : PillarScores) (k : String) (hk : k ∈ pillarKeys)
    (hnodup : (entries.map Prod.fst).Nodup) :
    getPillar (entries.foldl normalizeStep acc) k
      = match List.lookup k entries with
        | Option.none => getPillar acc k
        | Option.some v => stepValue (getPillar acc k) v := by
  induction entries generalizing acc with
  | nil => rfl
  | cons kv rest ih =>
      obtain ⟨k1, v1⟩ := kv
      simp only [List.map_cons, List.nodup_cons] at hnodup
      rw [List.foldl_cons, List.lookup_cons]
      by_cases he : k1 = k
      · subst he
        have hbeq : (k1 == k1) = true := by simp
        simp only [hbeq]
        rw [foldl_normalizeStep_untouched rest _ k1 hk hnodup.1,
          normalizeStep_getPillar_self acc k1 v1 hk]
      · have hbeq : (k == k1) = false := beq_eq_false_iff_ne.mpr (Ne.symm he)
        simp only [hbeq]
        rw [ih _ hnodup.2, normalizeStep_getPillar_ne acc (k1, v1) k hk he]

theorem getPillar_defaults (k : String) (hk : k ∈ pillarKeys) :
    getPillar pillarDefaults k = 5 := by
  fin_cases hk <;> rfl

theorem stepValue_five (v : PyVal) :
    stepValue 5 v = expectedPillar (Option.some v) := by
  cases v <;> rfl

theorem sanitizeOnePillar_eq_expected (entries : List (String × PyVal)) (k : String) :
    sanitizeOnePillar (PyVal.dict entries) k
      = expectedPillar (List.lookup k entries) := by
  rcases hl : List.lookup k entries with _ | v
  · simp only [sanitizeOnePillar, hl]
    rfl
  · simp only [sanitizeOnePillar, hl, Option.getD_some]
    cases v <;> rfl

theorem getPillar_sanitize (entries : List (String × PyVal)) (k : String)
    (hk : k ∈ pillarKeys) :
    getPillar (sanitize_pillar_scores (PyVal.dict entries)) k
      = sanitizeOnePillar (PyVal.dict entries) k := by
  fin_cases hk <;> rfl

/-- C9: pillar normalization is total, ignores unrecognized keys, and for each
of the five pillar keys returns the clamp to `[0, 10]` of every coercible
value and the default 5.0 for every missing, `None` or non-coercible value —
for both `_normalize_pillar_scores` and `_sanitize_pillar_scores`, whose
results therefore always lie in `[0, 10]`. -/
theorem c9_pillar_normalization (scores : Option (List (String × PyVal)))
    (hnodup : ((scores.getD []).map Prod.fst).Nodup) :
    ∀ k ∈ pillarKeys,
      getPillar (normalize_pillar_scores scores) k
        = expectedPillar (List.lookup k (scores.getD [])) ∧
      getPillar (sanitize_pillar_scores (PyVal.dict (scores.getD []))) k
        = expectedPillar (List.lookup k (scores.getD [])) ∧
      0 ≤ getPillar (normalize_pillar_scores scores) k ∧
      getPillar (normalize_pillar_scores scores) k ≤ 10 := by
  intro k hk
  have hmain : getPillar (normalize_pillar_scores scores) k
      = expectedPillar (List.lookup k (scores.getD [])) := by
    rcases scores with _ | entries
    · simp only [normalize_pillar_scores, Option.getD_none, List.lookup_nil,
        expectedPillar]
      exact getPillar_defaults k hk
    · simp only [normalize_pillar_scores, Option.getD_some] at hnodup ⊢
      rw [foldl_normalizeStep_lookup entries pillarDefaults k hk hnodup]
      rcases hl : List.lookup k entries with _ | v
      · simp only [expectedPillar]
        exact getPillar_defaults k hk
      · have h5 : getPillar pillarDefaults k = 5 := getPillar_defaults k hk
        show stepValue (getPillar pillarDefaults k) v = expectedPillar (Option.some v)
        rw [h5, stepValue_five]
  refine ⟨hmain, ?_, ?_, ?_⟩
  · rw [getPillar_sanitize _ k hk, sanitizeOnePillar_eq_expected]
  · rw [hmain]
    exact (expectedPillar_bounds _).1
  · rw [hmain]
    exact (expectedPillar_bounds _).2

/-- A normalization input with an out-of-range value, an unrecognized key, a
non-coercible string and an explicit `None`. -/
def samplePillarInput : Option (List (String × PyVal)) :=
  Option.some [("user_value", .str "12.5"), ("junk", .bool true),
    ("commercial_impact", .str "abc"), ("strategic_horizon", .none)]

/-- C9 witness: the normalization theorem applied to `samplePillarInput` at
the key `"user_value"`. -/
theorem c9_pillar_normalization_witness :
    getPillar (normalize_pillar_scores samplePillarInput) "user_value"
      = expectedPillar (List.lookup "user_value" (samplePillarInput.getD [])) ∧
    getPillar (sanitize_pillar_scores (PyVal.dict (samplePillarInput.getD [])))
        "user_value"
      = expectedPillar (List.lookup "user_value" (samplePillarInput.getD [])) ∧
    0 ≤ getPillar (normalize_pillar_scores samplePillarInput) "user_value" ∧
    getPillar (normalize_pillar_scores samplePillarInput) "user_value" ≤ 10 :=
  c9_pillar_normalization samplePillarInput (by decide) "user_value" (by decide)

/-! ### `app/main.py` — `_normalize_metric_payload` -/

/-- One entry of the `metrics` / `structured_metrics` payload lists: a plain
string, a dict (its `name` given as the string `str(entry.get("name", ""))`,
the four optional fields `None` when Python-falsy, else their `str(...)`
form), or any other value (skipped by both loops). -/
inductive MetricEntry where
  | str (s : String)
  | dict (name : String) (baseline target timeframe owner : Option String)
  | other
deriving DecidableEq, Repr

structure MetricItem where
  name : String
  baseline : Option String
  target : Option String
  timeframe : Option String
  owner : Option String
deriving DecidableEq, Repr

/-- The `MetricItem(...)` construction shared by both loops (stripping each
present optional field). -/
def mkMetricItem (name : String) (baseline target timeframe owner : Option String) :
    MetricItem :=
  { name := name
    baseline := baseline.map pyStrip
    target := target.map pyStrip
    timeframe := timeframe.map pyStrip
    owner := owner.map pyStrip }

/-- The loop over `metrics` (source lines 184-199): strings contribute their
stripped text, dicts with a non-empty stripped name contribute a structured
item plus its name, everything else is skipped. -/
def metricPhase1 : List MetricEntry → List String × List MetricItem
  | [] => ([], [])
  | .str s :: rest =>
      let acc := metricPhase1 rest
      if pyStrip s == "" then acc else (pyStrip s :: acc.1, acc.2)
  | .dict name b t tf o :: rest =>
      let acc := metricPhase1 rest
      let nm := pyStrip name
      if nm == "" then acc else (nm :: acc.1, mkMetricItem nm b t tf o :: acc.2)
  | .other :: rest => metricPhase1 rest

/-- The loop over `structured_metrics` (source lines 201-215): only dicts are
considered; empty names are dropped. -/
def metricPhase2 : List MetricEntry → List String × List MetricItem
  | [] => ([], [])
  | .dict name b t tf o :: rest =>
      let acc := metricPhase2 rest
      let nm := pyStrip name
      if nm == "" then acc else (nm :: acc.1, mkMetricItem nm b t tf o :: acc.2)
  | _ :: rest => metricPhase2 rest

/-- Seen-set deduplication keeping the first occurrence of each key, as both
dedupe loops of `_normalize_metric_payload` perform it. -/
def dedupeBy {α : Type} (key : α → String) : List String → List α → List α
  | _, [] => []
  | seen, x :: xs =>
      if key x ∈ seen then dedupeBy key seen xs
      else x :: dedupeBy key (key x :: seen) xs

/-- The merged text candidates in order of first appearance. -/
def mergedMetricTexts (metrics structured : List MetricEntry) : List String :=
  (metricPhase1 metrics).1 ++ (metricPhase2 structured).1

/-- The merged structured candidates in order of first appearance. -/
def mergedMetricItems (metrics structured : List MetricEntry) : List MetricItem :=
  (metricPhase1 metrics).2 ++ (metricPhase2 structured).2

/-- `app/main.py` `_normalize_metric_payload` (source lines 177-235). -/
def normalize_metric_payload (metrics structured : List MetricEntry) :
    List String × List MetricItem :=
  ((dedupeBy (fun s => pyLower s) [] (mergedMetricTexts metrics structured)).take 8,
   (dedupeBy (fun m => pyLower m.name) [] (mergedMetricItems metrics structured)).take 8)

theorem dedupeBy_sublist {α : Type} (key : α → String) :
    ∀ (seen : List String) (l : List α), (dedupeBy key seen l).Sublist l := by
  intro seen l
  induction l generalizing seen with
  | nil => simp [dedupeBy]
  | cons x xs ih =>
      unfold dedupeBy
      split_ifs with h
      · exact (ih seen).cons x
      · exact (ih (key x :: seen)).cons₂ x

theorem mem_dedupeBy_key_not_seen {α : Type} (key : α → String) (x : α) :
    ∀ (seen : List String) (l : List α), x ∈ dedupeBy key seen l → key x ∉ seen := by
  intro seen l
  induction l generalizing seen with
  | nil => simp [dedupeBy]
  | cons z zs ih =>
      unfold dedupeBy
      split_ifs with h
      · exact ih seen
      · intro hx
        rcases List.mem_cons.mp hx with rfl | hx'
        · exact h
        · intro hseen
          exact ih (key z :: seen) hx' (List.mem_cons_of_mem _ hseen)

theorem dedupeBy_keys_nodup {α : Type} (key : α → String) :
    ∀ (seen : List String) (l : List α), ((dedupeBy key seen l).map key).Nodup := by
  intro seen l
  induction l generalizing seen with
  | nil => simp [dedupeBy]
  | cons z zs ih =>
      unfold dedupeBy
      split_ifs with h
      · exact ih seen
      · rw [List.map_cons, List.nodup_cons]
        refine ⟨?_, ih (key z :: seen)⟩
        intro hmem
        rcases List.mem_map.mp hmem with ⟨y, hy, hkey⟩
        exact mem_dedupeBy_key_not_seen key y _ _ hy (hkey ▸ List.mem_cons_self _ _)

theorem dedupeBy_first_occurrence {α : Type} (key : α → String) (x : α) :
    ∀ (seen : List String) (l : List α), x ∈ dedupeBy key seen l →
      ∃ pre suf, l = pre ++ x :: suf ∧
        ∀ y ∈ pre, key y ∈ seen ∨ key y ≠ key x := by
  intro seen l
  induction l generalizing seen with
  | nil => simp [dedupeBy]
  | cons z zs ih =>
      unfold dedupeBy
      split_ifs with h
      · intro hx
        obtain ⟨pre, suf, heq, hpre⟩ := ih seen hx
        refine ⟨z :: pre, suf, by rw [heq, List.cons_append], ?_⟩
        intro y hy
        rcases List.mem_cons.mp hy with rfl | hy'
        · exact Or.inl h
        · exact hpre y hy'
      · intro hx
        rcases List.mem_cons.mp hx with rfl | hx'
        · exact ⟨[], zs, rfl, by simp⟩
        · have hkx := mem_dedupeBy_key_not_seen key x _ _ hx'
          have hkxz : key x ≠ key z := fun he => hkx (he ▸ List.mem_cons_self _ _)
          have hkxseen : key x ∉ seen := fun he => hkx (List.mem_cons_of_mem _ he)
          obtain ⟨pre, suf, heq, hpre⟩ := ih (key z :: seen) hx'
          refine ⟨z :: pre, suf, by rw [heq, List.cons_append], ?_⟩
          intro y hy
          rcases List.mem_cons.mp hy with rfl | hy'
          · exact Or.inr (fun he => hkxz he.symm)
          · rcases hpre y hy' with hin | hne
            · rcases List.mem_cons.mp hin with he | hin'
              · exact Or.inr (fun hxy => hkxz ((hxy ▸ he : key x = key z)))
              · exact Or.inl hin'
            · exact Or.inr hne

theorem dedupeBy_first_of_nil {α : Type} (key : α → String) (x : α) (l : List α)
    (hx : x ∈ dedupeBy key [] l) :
    ∃ pre suf, l = pre ++ x :: suf ∧ ∀ y ∈ pre, key y ≠ key x := by
  obtain ⟨pre, suf, heq, hpre⟩ := dedupeBy_first_occurrence key x [] l hx
  exact ⟨pre, suf, heq, fun y hy => (hpre y hy).resolve_left (by simp)⟩

theorem metricPhase1_names (l : List MetricEntry) :
    ∀ m ∈ (metricPhase1 l).2, m.name ≠ "" := by
  induction l with
  | nil => simp [metricPhase1]
  | cons e rest ih =>
      cases e with
      | str s =>
          simp only [metricPhase1]
          split_ifs with h
          · exact ih
          · exact ih
      | dict name b t tf o =>
          simp only [metricPhase1]
          split_ifs with h
          · exact ih
          · intro m hm
            rcases List.mem_cons.mp hm with rfl | hm'
            · simpa [mkMetricItem] using h
            · exact ih m hm'
      | other => exact ih

theorem metricPhase2_names (l : List MetricEntry) :
    ∀ m ∈ (metricPhase2 l).2, m.name ≠ "" := by
  induction l with
  | nil => simp [metricPhase2]
  | cons e rest ih =>
      cases e with
      | str s => exact ih
      | dict name b t tf o =>
          simp only [metricPhase2]
          split_ifs with h
          · exact ih
          · intro m hm
            rcases List.mem_cons.mp hm with rfl | hm'
            · simpa [mkMetricItem] using h
            · exact ih m hm'
      | other => exact ih

/-- C8: metric normalization keeps first-appearance order (each output is a
sublist of the merged candidates, and every kept entry is the first of its
case-insensitive class, so first-seen casing wins), deduplicates
case-insensitively (text entries by value, structured entries by name),
truncates each list to at most 8, drops structured entries with empty or
missing names, and maps `["Adoption", "adoption", {"name": "Retention"}]` to
the text list `["Adoption", "Retention"]` of length 2. -/
theorem c8_metric_normalization (metrics structured : List MetricEntry) :
    ((normalize_metric_payload metrics structured).1.length ≤ 8 ∧
     (normalize_metric_payload metrics structured).2.length ≤ 8) ∧
    (((normalize_metric_payload metrics structured).1.map pyLower).Nodup ∧
     ((normalize_metric_payload metrics structured).2.map
        (fun m => pyLower m.name)).Nodup) ∧
    ((normalize_metric_payload metrics structured).1.Sublist
        (mergedMetricTexts metrics structured) ∧
     (normalize_metric_payload metrics structured).2.Sublist
        (mergedMetricItems metrics structured)) ∧
    (∀ x ∈ (normalize_metric_payload metrics structured).1,
       ∃ pre suf, mergedMetricTexts metrics structured = pre ++ x :: suf ∧
         ∀ y ∈ pre, pyLower y ≠ pyLower x) ∧
    (∀ m ∈ (normalize_metric_payload metrics structured).2, m.name ≠ "") ∧
    normalize_metric_payload
        [.str "Adoption", .str "adoption",
         .dict "Retention" Option.none Option.none Option.none Option.none] []
      = (["Adoption", "Retention"],
         [mkMetricItem "Retention" Option.none Option.none Option.none Option.none]) := by
  refine ⟨⟨List.length_take_le 8 _, List.length_take_le 8 _⟩, ⟨?_, ?_⟩, ⟨?_, ?_⟩,
    ?_, ?_, by decide⟩
  · exact ((dedupeBy_keys_nodup _ [] _).sublist
      ((List.take_sublist 8 _).map pyLower))
  · exact ((dedupeBy_keys_nodup _ [] _).sublist
      ((List.take_sublist 8 _).map (fun (m : MetricItem) => pyLower m.name)))
  · exact (List.take_sublist 8 _).trans (dedupeBy_sublist _ [] _)
  · exact (List.take_sublist 8 _).trans (dedupeBy_sublist _ [] _)
  · intro x hx
    exact dedupeBy_first_of_nil _ x _ (List.mem_of_mem_take hx)
  · intro m hm
    have hm' := (dedupeBy_sublist (fun m => pyLower m.name) []
      (mergedMetricItems metrics structured)).mem (List.mem_of_mem_take hm)
    rcases List.mem_append.mp hm' with h1 | h2
    · exact metricPhase1_names metrics m h1
    · exact metricPhase2_names structured m h2

/-- C8 witness: the normalization theorem applied at the claim's example
input, extracting the first-occurrence property for the kept entry
`"Adoption"`. -/
theorem c8_metric_normalization_witness :
    ∃ pre suf,
      mergedMetricTexts
          [.str "Adoption", .str "adoption",
           .dict "Retention" Option.none Option.none Option.none Option.none] []
        = pre ++ "Adoption" :: suf ∧
      ∀ y ∈ pre, pyLower y ≠ pyLower "Adoption" :=
  (c8_metric_normalization
      [.str "Adoption", .str "adoption",
       .dict "Retention" Option.none Option.none Option.none Option.none] []).2.2.2.1
    "Adoption" (by decide)

/-! ### `app/main.py` — the revision pass of `generate_backlog_item_v2` -/

/-- The `should_revise` condition (source lines 543-546): the OpenAI client is
configured AND (the first evaluation's quality score is below 85 or one of its
warnings has severity high). -/
def should_revise (client_available : Bool) (evaluation : QualityEvalResult) : Bool :=
  client_available &&
    (decide (evaluation.quality_score < 85) ||
      evaluation.warnings.any (fun w => w.severity == WarningSeverity.HIGH))

/-- Outcome of the generation handler: the final draft, its evaluation, and
how many revision passes ran. -/
structure GenerationOutcome (Draft : Type) where
  draft : Draft
  evaluation : QualityEvalResult
  revision_passes : ℕ
deriving Repr

/-- The revision control flow of `generate_backlog_item_v2` (source lines
539-553): evaluate the generated draft; when `should_revise`, request one
revised draft from the story-generation collaborator (`revise`) and re-run
the same evaluation on it.  The handler has no loop: the block executes at
most once. -/
def run_generation_v2 {Draft : Type} (client_available : Bool)
    (evaluate : Draft → QualityEvalResult) (revise : Draft → Draft)
    (generated : Draft) : GenerationOutcome Draft :=
  let evaluation := evaluate generated
  if should_revise client_available evaluation then
    let revised := revise generated
    { draft := revised, evaluation := evaluate revised, revision_passes := 1 }
  else
    { draft := generated, evaluation := evaluation, revision_passes := 0 }

/-- C7: a revision pass runs if and only if the revision capability is
available and (the first evaluation's quality score is strictly below 85 or
some warning of that evaluation has severity high); at most one pass ever
occurs regardless of how the revised draft re-evaluates, and when a pass
occurs the returned evaluation is the re-evaluation of the revised draft. -/
theorem c7_single_revision_pass {Draft : Type} (client_available : Bool)
    (evaluate : Draft → QualityEvalResult) (revise : Draft → Draft)
    (generated : Draft) :
    ((run_generation_v2 client_available evaluate revise generated).revision_passes = 1
      ↔ client_available = true ∧
        ((evaluate generated).quality_score < 85 ∨
          ∃ w ∈ (evaluate generated).warnings,
            w.severity = WarningSeverity.HIGH)) ∧
    (run_generation_v2 client_available evaluate revise generated).revision_passes ≤ 1 ∧
    ((run_generation_v2 client_available evaluate revise generated).revision_passes = 1 →
      (run_generation_v2 client_available evaluate revise generated).evaluation
        = evaluate (revise generated)) := by
  have hcond : should_revise client_available (evaluate generated) = true
      ↔ client_available = true ∧
        ((evaluate generated).quality_score < 85 ∨
          ∃ w ∈ (evaluate generated).warnings, w.severity = WarningSeverity.HIGH) := by
    simp [should_revise, List.any_eq_true, decide_eq_true_iff]
  unfold run_generation_v2
  by_cases h : should_revise client_available (evaluate generated) = true
  · rw [if_pos h]
    exact ⟨⟨fun _ => hcond.mp h, fun _ => rfl⟩, by norm_num, fun _ => rfl⟩
  · rw [if_neg h]
    refine ⟨⟨fun h1 => absurd h1 (by norm_num), fun hr => absurd (hcond.mpr hr) h⟩,
      by norm_num, fun h1 => absurd h1 (by norm_num)⟩

/-- An evaluation result triggering revision (score 0, no warnings). -/
def lowScoreEval : QualityEvalResult :=
  { warnings := []
    warnings_text := []
    quality_score := 0
    quality_confidence := 0
    quality_breakdown := ⟨0, 0, 0, 0, 0, 0, 0⟩
    role_scores := ⟨0, 0, 0, 0⟩
    execution_readiness_score := 0 }

/-- C7 witness: the revision theorem applied to a concrete pipeline whose
first evaluation scores 0 — exactly one pass runs and the result carries the
re-evaluation of the revised draft. -/
theorem c7_single_revision_pass_witness :
    (run_generation_v2 true (fun _ : Bool => lowScoreEval) not false).revision_passes = 1 ∧
    (run_generation_v2 true (fun _ : Bool => lowScoreEval) not false).evaluation
      = lowScoreEval :=
  ⟨(c7_single_revision_pass true (fun _ : Bool => lowScoreEval) not false).1.mpr
      ⟨rfl, Or.inl (by decide)⟩,
   (c7_single_revision_pass true (fun _ : Bool => lowScoreEval) not false).2.2
      ((c7_single_revision_pass true (fun _ : Bool => lowScoreEval) not false).1.mpr
        ⟨rfl, Or.inl (by decide)⟩)⟩

end BacklogAI
